import Mathlib

/-!
Verification of the colmi-r02-client scripts against their specification.

The scripts under `scripts/` are embedded shallowly:
- `scripts/get_hr.py` : `download_hr_logs`, `realtime_hr`
- `scripts/get_spo2.py` : `collect_spo2`
- `scripts/demo_queries.py` : drives the historical-log parsers

Instants are modelled as minutes since the Unix epoch (an `Int`); all
timezone-aware instants in these scripts are UTC (naive inputs are
interpreted as UTC by `date_utils.naive_to_aware`), so an aware datetime
is a pair of an instant and an awareness flag.  Device I/O is modelled
by an oracle `fetch : Int → FetchResult` giving the outcome of the
heart-rate-log request for a day, and the observable effects of a run
(connection opened, requests issued) are returned as an event trace.
-/

/-- Number of minutes in one calendar day. -/
def minutesPerDay : Int := 1440

/-- A Python `datetime`: an instant (minutes since epoch, UTC) plus a flag
telling whether the value is timezone-aware (`tzinfo is not None`). -/
structure PyDatetime where
  minutes : Int
  aware : Bool
deriving DecidableEq, Repr

/-- Modelled from the spec: `DateUtils.toAware` — `date_utils.naive_to_aware`
(not under `src/`) attaches UTC to a naive instant; the wall-clock value is
kept, so the instant is unchanged and the result is aware. -/
def naive_to_aware (d : PyDatetime) : PyDatetime :=
  { d with aware := true }

/-- Floor an instant to the start of its (UTC) calendar day. -/
def startOfDayMin (t : Int) : Int :=
  t - t % minutesPerDay

/-- Modelled from the spec: `DateUtils.startOfDay` — `date_utils.start_of_day`
(not under `src/`) maps an instant to the start-of-day instant of its calendar
day, keeping awareness. -/
def start_of_day (d : PyDatetime) : PyDatetime :=
  { d with minutes := startOfDayMin d.minutes }

/-- The sequence of `n` consecutive day instants starting at `d0`. -/
def daysFrom (d0 : Int) : Nat → List Int
  | 0 => []
  | n + 1 => d0 :: daysFrom (d0 + minutesPerDay) n

/-- Modelled from the spec: `DateUtils.enumerateDays` — `date_utils.dates_between`
(not under `src/`) yields the ordered day instants of the calendar days from
`s` to `e`, inclusive on both ends, each exactly 24 hours apart. -/
def dates_between (s e : Int) : List Int :=
  daysFrom (startOfDayMin s) ((startOfDayMin e - startOfDayMin s).toNat / 1440 + 1)

/-- The two-digit zero-padded rendering used inside ISO-8601 timestamps. -/
def pad2 (n : Int) : String :=
  if n < 10 then "0" ++ toString n else toString n

/-- Convert a count of days since 1970-01-01 to a (year, month, day) civil
date (proleptic Gregorian), as Python's `datetime` does. -/
def civilFromDays (z0 : Int) : Int × Int × Int :=
  let z := z0 + 719468
  let era := z / 146097
  let doe := z - era * 146097
  let yoe := (doe - doe / 1460 + doe / 36524 - doe / 146096) / 365
  let y := yoe + era * 400
  let doy := doe - (365 * yoe + yoe / 4 - yoe / 100)
  let mp := (5 * doy + 2) / 153
  let d := doy - (153 * mp + 2) / 5 + 1
  let m := if mp < 10 then mp + 3 else mp - 9
  (if m ≤ 2 then y + 1 else y, m, d)

/-- Python `datetime.isoformat()` on an aware UTC instant of whole-minute
resolution: `YYYY-MM-DDTHH:MM:SS+00:00`. -/
def isoformat (t : Int) : String :=
  let ymd := civilFromDays (t / minutesPerDay)
  let rem := t % minutesPerDay
  toString ymd.1 ++ "-" ++ pad2 ymd.2.1 ++ "-" ++ pad2 ymd.2.2 ++ "T" ++
    pad2 (rem / 60) ++ ":" ++ pad2 (rem % 60) ++ ":00+00:00"

/-- Modelled from the spec: the fixed per-sample offset interval of a
historical log ("each sample implicitly time-offset from `timestamp` by a
fixed interval"); the exact value is a protocol constant (spec §9). -/
def sampleIntervalMin : Int := 5

/-- `hr.HeartRateLog` (package module, not under `src/`): the day's
start-of-day timestamp plus the ordered sample sequence. -/
structure HeartRateLog where
  timestamp : Int
  heart_rates : List Int
deriving DecidableEq, Repr

/-- Pair each reading with its instant, offsetting successive readings by the
fixed sample interval from the starting instant. -/
def withTimes (t : Int) : List Int → List (Int × Int)
  | [] => []
  | r :: rs => (r, t) :: withTimes (t + sampleIntervalMin) rs

/-- Modelled from the spec: `HeartRateLog.heart_rates_with_times` (package
module, not under `src/`) yields `(reading, timestamp)` pairs in sample
order, each sample offset from the log's timestamp by the fixed interval. -/
def HeartRateLog.heart_rates_with_times (log : HeartRateLog) : List (Int × Int) :=
  withTimes log.timestamp log.heart_rates

/-- Outcome of `client.get_heart_rate_log` for one day, as seen by
`download_hr_logs`: a log, the `NoData` sentinel, or a raised exception. -/
inductive FetchResult where
  | ok (log : HeartRateLog)
  | noData
  | exn (msg : String)
deriving DecidableEq, Repr

/-- The per-day outcome printed/recorded by the download loop. -/
inductive DayStatus where
  | okDay (nSamples : Nat)
  | noData
  | error (msg : String)
deriving DecidableEq, Repr

/-- Observable device-side events of a run: opening the client connection
and issuing one historical-log request (with its target instant). -/
inductive Ev where
  | connect
  | request (target : Int)
deriving DecidableEq, Repr

/-- The rows appended for one day's log in `download_hr_logs`:
`(ts.isoformat(), int(reading))` for each `(reading, ts)` pair, zeros
included. -/
def logRows (log : HeartRateLog) : List (String × Int) :=
  log.heart_rates_with_times.map (fun p => (isoformat p.2, p.1))

/-- The day loop of `download_hr_logs` (`scripts/get_hr.py` lines 88-103):
for each day `d`, issue `get_heart_rate_log(start_of_day(d))`; an exception
is caught, printed and the loop continues; `NoData` is printed and the loop
continues; otherwise the day's rows are appended. -/
def loopDays (fetch : Int → FetchResult) :
    List Int → List Ev → List DayStatus → List (String × Int) →
    List Ev × List DayStatus × List (String × Int)
  | [], evs, sts, rows => (evs, sts, rows)
  | d :: rest, evs, sts, rows =>
    let target := startOfDayMin d
    match fetch target with
    | .exn m => loopDays fetch rest (evs ++ [.request target]) (sts ++ [.error m]) rows
    | .noData => loopDays fetch rest (evs ++ [.request target]) (sts ++ [.noData]) rows
    | .ok log =>
        loopDays fetch rest (evs ++ [.request target])
          (sts ++ [.okDay log.heart_rates.length]) (rows ++ logRows log)

/-- The `if start.tzinfo is None: start = naive_to_aware(start)` steps of
`download_hr_logs` (`scripts/get_hr.py` lines 77-80). -/
def ensure_aware (d : PyDatetime) : PyDatetime :=
  if d.aware then d else naive_to_aware d

/-- `scripts/get_hr.py` `download_hr_logs`: default missing endpoints, make
both endpoints aware, raise `ValueError` when `start > end`, then connect and
run the day loop.  The result is the event trace (connection, requests) plus
either the raised error or the per-day statuses and collected rows. -/
def download_hr_logs (fetch : Int → FetchResult) (nowMin : Int)
    (startArg : Option PyDatetime) (endArg : Option PyDatetime) :
    List Ev × Except String (List DayStatus × List (String × Int)) :=
  let p : PyDatetime × PyDatetime :=
    match startArg, endArg with
    | none, none =>
        let s := start_of_day { minutes := nowMin, aware := true }
        (s, s)
    | some s, none => (s, s)
    | none, some e => (e, e)
    | some s, some e => (s, e)
  let start := ensure_aware p.1
  let stop := ensure_aware p.2
  if start.minutes > stop.minutes then
    ([], Except.error "start must be <= end")
  else
    let out := loopDays fetch (dates_between start.minutes stop.minutes) [] [] []
    (Ev.connect :: out.1, Except.ok (out.2.1, out.2.2))

/-- Result of feeding the first frame of a historical-log request to a log
parser: the `NoData` sentinel, or the header frame opening accumulation. -/
inductive LogParseResult where
  | noData
  | header (frame : List Nat)
deriving DecidableEq, Repr

/-- `hr.CMD_READ_HEART_RATE`: the heart-rate log command byte (package
constant, value as used on the wire). -/
def CMD_READ_HEART_RATE : Nat := 21

/-- `steps.CMD_GET_STEP_SOMEDAY`: the step/sport-detail log command byte
(package constant, value as used on the wire). -/
def CMD_GET_STEP_SOMEDAY : Nat := 67

/-- Modelled from the spec: `packet.checksum` (package module, not under
`src/`) — sum of the bytes preceding the checksum slot, mod 256. -/
def checksum (packet : List Nat) : Nat :=
  ((packet.take 15).foldl (· + ·) 0) % 256

/-- Modelled from the spec: `hr.HeartRateLogParser.parse` (package module,
not under `src/`) on the first frame of a request — subtype byte `255` is the
reserved "no data" sentinel and yields `NoData` directly; any other first
frame is the header opening accumulation (exact header format is a protocol
constant, spec §9). -/
def HeartRateLogParser_parse (packet : List Nat) : LogParseResult :=
  if packet.getD 1 0 = 255 then .noData else .header packet

/-- Modelled from the spec: `steps.SportDetailParser.parse` (package module,
not under `src/`) on the first frame of a request — the same sentinel rule,
valid for any command that supports historical queries. -/
def SportDetailParser_parse (packet : List Nat) : LogParseResult :=
  if packet.getD 1 0 = 255 then .noData else .header packet

/-- The `NoData` packet built by `demo_hr_nodata` in
`scripts/demo_queries.py`: 16 bytes, command byte then subtype 255, checksum
in the last slot. -/
def hrNoDataPacket : List Nat :=
  [CMD_READ_HEART_RATE, 255, 0, 0, 0, 0, 0, 0, 0, 0, 0, 0, 0, 0, 0,
   checksum [CMD_READ_HEART_RATE, 255, 0, 0, 0, 0, 0, 0, 0, 0, 0, 0, 0, 0, 0, 0]]

/-- The `NoData` packet built by `demo_steps_nodata` in
`scripts/demo_queries.py`. -/
def stepsNoDataPacket : List Nat :=
  [CMD_GET_STEP_SOMEDAY, 255, 0, 0, 0, 0, 0, 0, 0, 0, 0, 0, 0, 0, 0,
   checksum [CMD_GET_STEP_SOMEDAY, 255, 0, 0, 0, 0, 0, 0, 0, 0, 0, 0, 0, 0, 0, 0]]

/-- The filter applied by `collect_spo2` (`scripts/get_spo2.py` line 33):
Python `r and 50 <= r <= 100`, i.e. nonzero and within the physiological
SpO2 range. -/
def spo2Valid (r : Int) : Bool :=
  r != 0 && decide (50 ≤ r) && decide (r ≤ 100)

/-- `scripts/get_spo2.py` `collect_spo2`: connect, request one batch of
real-time SpO2 readings (`clientResult` is the client's response, `none`
when the client returns `None`), extend the reading buffer, and return the
readings passing the validity filter.  The `count`, `max_tries` and
`timeout` parameters appear in the signature (Python defaults 6, 20, 2.0)
exactly as in the source. -/
def collect_spo2 (address : String) (count : Int) (max_tries : Int)
    (timeout : Int) (clientResult : Option (List Int)) : List Int :=
  match clientResult with
  | none => []
  | some result =>
    let readings : List Int := result
    readings.filter spo2Valid

/-- Observable outcome of `realtime_hr` (`scripts/get_hr.py` lines 31-43):
it prints and returns without error in every case — either no readings came
back, or all readings were zero, or a summary of the nonzero readings. -/
inductive RealtimeHrOutcome where
  | noReadings
  | noValid (raw : List Int)
  | summary (valid : List Int)
deriving DecidableEq, Repr

/-- `scripts/get_hr.py` `realtime_hr`: `if not readings` catches both a
`None` response and an empty list; otherwise the nonzero readings are kept
and summarized when any remain. -/
def realtime_hr (readings : Option (List Int)) : RealtimeHrOutcome :=
  match readings with
  | none => .noReadings
  | some rs =>
    if rs.isEmpty then .noReadings
    else
      let valid := rs.filter (fun r => r != 0)
      if valid.isEmpty then .noValid rs else .summary valid

/-- The per-day status recorded by the download loop for a fetch outcome. -/
def dayStatus : FetchResult → DayStatus
  | .ok log => .okDay log.heart_rates.length
  | .noData => .noData
  | .exn m => .error m

/-- The rows a fetch outcome contributes to the flattened output: a day's
log rows on success, nothing on `NoData` or an exception. -/
def dayRows : FetchResult → List (String × Int)
  | .ok log => logRows log
  | .noData => []
  | .exn _ => []

/-- The day loop appends, per day in order, one request event, one status,
and that day's rows. -/
theorem loopDays_eq (fetch : Int → FetchResult) (days : List Int)
    (evs : List Ev) (sts : List DayStatus) (rows : List (String × Int)) :
    loopDays fetch days evs sts rows =
      (evs ++ days.map (fun d => Ev.request (startOfDayMin d)),
       sts ++ days.map (fun d => dayStatus (fetch (startOfDayMin d))),
       rows ++ days.flatMap (fun d => dayRows (fetch (startOfDayMin d)))) := by
  induction days generalizing evs sts rows with
  | nil => simp [loopDays]
  | cons d rest ih =>
    cases hf : fetch (startOfDayMin d) <;>
      simp [loopDays, hf, ih, dayStatus, dayRows]

/-- On a window given by two aware endpoints in order, a download run
connects, issues the per-day requests in order, and succeeds with the
pointwise statuses and the flattened rows. -/
theorem download_hr_logs_ok (fetch : Int → FetchResult) (nowMin : Int)
    (s e : PyDatetime) (hs : s.aware = true) (he : e.aware = true)
    (hle : s.minutes ≤ e.minutes) :
    download_hr_logs fetch nowMin (some s) (some e) =
      (Ev.connect ::
         (dates_between s.minutes e.minutes).map
           (fun d => Ev.request (startOfDayMin d)),
       Except.ok
         ((dates_between s.minutes e.minutes).map
            (fun d => dayStatus (fetch (startOfDayMin d))),
          (dates_between s.minutes e.minutes).flatMap
            (fun d => dayRows (fetch (startOfDayMin d))))) := by
  have hnot : ¬ s.minutes > e.minutes := not_lt.mpr hle
  simp only [download_hr_logs, ensure_aware, hs, he, if_true, if_pos]
  rw [if_neg hnot]
  rw [loopDays_eq]
  simp

/-- A start-of-day instant is a multiple of the day length. -/
theorem startOfDayMin_emod (t : Int) : startOfDayMin t % minutesPerDay = 0 := by
  unfold startOfDayMin minutesPerDay
  omega

/-- `start_of_day` is idempotent on instants. -/
theorem startOfDayMin_idem (t : Int) : startOfDayMin (startOfDayMin t) = startOfDayMin t := by
  have h := startOfDayMin_emod t
  unfold startOfDayMin at *
  omega

/-- Day instants a whole number of days after a start-of-day instant are
themselves start-of-day instants. -/
theorem startOfDayMin_add_days (t : Int) (k : Int) :
    startOfDayMin (startOfDayMin t + minutesPerDay * k) = startOfDayMin t + minutesPerDay * k := by
  unfold startOfDayMin minutesPerDay
  omega

/-- `daysFrom` yields as many days as requested. -/
theorem daysFrom_length (d0 : Int) (n : Nat) : (daysFrom d0 n).length = n := by
  induction n generalizing d0 with
  | zero => rfl
  | succ m ih => simp [daysFrom, ih]

/-- The `i`-th day yielded by `daysFrom` is `i` whole days after the first. -/
theorem daysFrom_get (d0 : Int) (n i : Nat) (h : i < (daysFrom d0 n).length) :
    (daysFrom d0 n).get ⟨i, h⟩ = d0 + minutesPerDay * i := by
  induction n generalizing d0 i with
  | zero => simp [daysFrom] at h
  | succ m ih =>
    cases i with
    | zero => simp [daysFrom]
    | succ j =>
      have hj : j < (daysFrom (d0 + minutesPerDay) m).length := by
        simpa [daysFrom] using h
      have := ih (d0 + minutesPerDay) j hj
      simp only [daysFrom, List.get_cons_succ]
      rw [this]
      push_cast
      ring

/-- Every day yielded by `daysFrom` is a whole number of days after the
first. -/
theorem daysFrom_mem (d0 : Int) (n : Nat) (d : Int) (hd : d ∈ daysFrom d0 n) :
    ∃ k : Nat, d = d0 + minutesPerDay * k := by
  induction n generalizing d0 with
  | zero => simp [daysFrom] at hd
  | succ m ih =>
    simp only [daysFrom, List.mem_cons] at hd
    rcases hd with rfl | hd
    · exact ⟨0, by simp⟩
    · obtain ⟨k, rfl⟩ := ih (d0 + minutesPerDay) hd
      exact ⟨k + 1, by push_cast; ring⟩

/-- Length of the enumerated day sequence: one entry per calendar day of the
window, both endpoints included. -/
theorem dates_between_length (s e : Int) :
    (dates_between s e).length =
      (startOfDayMin e - startOfDayMin s).toNat / 1440 + 1 := by
  simp only [dates_between, daysFrom_length]

/-- The `i`-th enumerated day is exactly `i` days after the window start's
day: days are ascending and 24 hours apart. -/
theorem dates_between_get (s e : Int) (i : Nat) (h : i < (dates_between s e).length) :
    (dates_between s e).get ⟨i, h⟩ = startOfDayMin s + minutesPerDay * i := by
  simp only [dates_between] at h ⊢
  exact daysFrom_get _ _ i h

/-- Every enumerated day is a start-of-day instant (already normalized). -/
theorem dates_between_mem_sod (s e : Int) (d : Int) (hd : d ∈ dates_between s e) :
    startOfDayMin d = d := by
  simp only [dates_between] at hd
  obtain ⟨k, rfl⟩ := daysFrom_mem _ _ _ hd
  exact startOfDayMin_add_days s k

/-- The `i`-th element of `withTimes t l` pairs the `i`-th reading with the
instant offset `i` sample intervals from `t`. -/
theorem withTimes_get_mem (t : Int) (l : List Int) (i : Nat) (h : i < l.length) :
    (l.get ⟨i, h⟩, t + sampleIntervalMin * i) ∈ withTimes t l := by
  induction l generalizing t i with
  | nil => simp at h
  | cons r rs ih =>
    cases i with
    | zero => simp [withTimes]
    | succ j =>
      have hj : j < rs.length := Nat.lt_of_succ_lt_succ h
      have := ih (t + sampleIntervalMin) j hj
      simp only [withTimes, List.mem_cons]
      right
      have harith : t + sampleIntervalMin + sampleIntervalMin * (j : Int) =
          t + sampleIntervalMin * ((j : Int) + 1) := by ring
      simpa [harith, Nat.cast_succ] using this

/-- C1: for every date window with start <= end, a fetch or parse exception
for one day is recorded as that day's error status and the loop proceeds:
the run succeeds (never aborts), every day of the window gets a status in
order, rows already collected for other days remain in the flattened output
(the failing day contributes none), and no exception propagates. -/
theorem c1_per_day_failures_do_not_abort (fetch : Int → FetchResult)
    (nowMin : Int) (s e : PyDatetime) (hs : s.aware = true)
    (he : e.aware = true) (hle : s.minutes ≤ e.minutes) :
    (download_hr_logs fetch nowMin (some s) (some e)).2 =
      Except.ok
        ((dates_between s.minutes e.minutes).map
           (fun d => dayStatus (fetch (startOfDayMin d))),
         (dates_between s.minutes e.minutes).flatMap
           (fun d => dayRows (fetch (startOfDayMin d)))) ∧
    (∀ d ∈ dates_between s.minutes e.minutes, ∀ m,
       fetch (startOfDayMin d) = FetchResult.exn m →
         dayStatus (fetch (startOfDayMin d)) = DayStatus.error m ∧
         dayRows (fetch (startOfDayMin d)) = []) := by
  constructor
  · rw [download_hr_logs_ok fetch nowMin s e hs he hle]
  · intro d _ m hm
    rw [hm]
    exact ⟨rfl, rfl⟩

/-- Witness for C1: a three-day window whose middle day raises keeps the
other days' statuses and rows and still succeeds. -/
theorem c1_witness :
    (download_hr_logs
        (fun t => if t = 1440 then FetchResult.exn "boom"
                  else FetchResult.ok { timestamp := t, heart_rates := [70] })
        0 (some ⟨0, true⟩) (some ⟨2880, true⟩)).2 =
      Except.ok
        ((dates_between 0 2880).map
           (fun d => dayStatus
             ((fun t => if t = 1440 then FetchResult.exn "boom"
                        else FetchResult.ok { timestamp := t, heart_rates := [70] })
               (startOfDayMin d))),
         (dates_between 0 2880).flatMap
           (fun d => dayRows
             ((fun t => if t = 1440 then FetchResult.exn "boom"
                        else FetchResult.ok { timestamp := t, heart_rates := [70] })
               (startOfDayMin d)))) ∧
    (∀ d ∈ dates_between 0 2880, ∀ m,
       (fun t => if t = 1440 then FetchResult.exn "boom"
                 else FetchResult.ok { timestamp := t, heart_rates := [70] })
           (startOfDayMin d) = FetchResult.exn m →
         dayStatus
           ((fun t => if t = 1440 then FetchResult.exn "boom"
                      else FetchResult.ok { timestamp := t, heart_rates := [70] })
             (startOfDayMin d)) = DayStatus.error m ∧
         dayRows
           ((fun t => if t = 1440 then FetchResult.exn "boom"
                      else FetchResult.ok { timestamp := t, heart_rates := [70] })
             (startOfDayMin d)) = []) :=
  c1_per_day_failures_do_not_abort _ 0 ⟨0, true⟩ ⟨2880, true⟩ rfl rfl (by decide)

/-- C2: when the normalized (timezone-aware) start is strictly after the
normalized end, `download_hr_logs` raises `ValueError` with an empty event
trace: the client connection is never opened and no per-day request is
issued. -/
theorem c2_invalid_window_rejected_before_any_request
    (fetch : Int → FetchResult) (nowMin : Int) (s e : PyDatetime)
    (hgt : (ensure_aware s).minutes > (ensure_aware e).minutes) :
    download_hr_logs fetch nowMin (some s) (some e) =
      ([], Except.error "start must be <= end") := by
  simp only [download_hr_logs]
  rw [if_pos hgt]

/-- Witness for C2: a window ending one day before it starts is rejected
with no connection and no request. -/
theorem c2_witness :
    download_hr_logs (fun _ => FetchResult.noData) 0
        (some ⟨1440, true⟩) (some ⟨0, true⟩) =
      ([], Except.error "start must be <= end") :=
  c2_invalid_window_rejected_before_any_request _ 0 ⟨1440, true⟩ ⟨0, true⟩ (by decide)

/-- C3: any historical-log first frame whose subtype byte (payload byte 1)
is `255` parses to the `NoData` sentinel, for the heart-rate log parser and
the step/sport-detail parser alike, whatever the command byte is. -/
theorem c3_sentinel_subtype_yields_nodata (packet : List Nat)
    (h : packet.getD 1 0 = 255) :
    HeartRateLogParser_parse packet = LogParseResult.noData ∧
    SportDetailParser_parse packet = LogParseResult.noData := by
  unfold HeartRateLogParser_parse SportDetailParser_parse
  rw [h]
  exact ⟨rfl, rfl⟩

/-- Witness for C3: the concrete `NoData` packets built by
`demo_hr_nodata` and `demo_steps_nodata` both parse to `NoData`. -/
theorem c3_witness :
    HeartRateLogParser_parse hrNoDataPacket = LogParseResult.noData ∧
    SportDetailParser_parse stepsNoDataPacket = LogParseResult.noData :=
  ⟨(c3_sentinel_subtype_yields_nodata hrNoDataPacket (by decide)).1,
   (c3_sentinel_subtype_yields_nodata stepsNoDataPacket (by decide)).2⟩

/-- C4: for a valid window, the run opens one connection and then issues
exactly one historical-log request per calendar day of the window, both
endpoints included, in ascending order 24 hours apart, each request's
target being that day's start-of-day instant (the enumerated days are
already start-of-day normalized). -/
theorem c4_one_request_per_day_ascending (fetch : Int → FetchResult)
    (nowMin : Int) (s e : PyDatetime) (hs : s.aware = true)
    (he : e.aware = true) (hle : s.minutes ≤ e.minutes) :
    (download_hr_logs fetch nowMin (some s) (some e)).1 =
      Ev.connect :: (dates_between s.minutes e.minutes).map
        (fun d => Ev.request (startOfDayMin d)) ∧
    (dates_between s.minutes e.minutes).length =
      (startOfDayMin e.minutes - startOfDayMin s.minutes).toNat / 1440 + 1 ∧
    (∀ i, (h : i < (dates_between s.minutes e.minutes).length) →
      (dates_between s.minutes e.minutes).get ⟨i, h⟩ =
        startOfDayMin s.minutes + minutesPerDay * i) ∧
    (∀ d ∈ dates_between s.minutes e.minutes, startOfDayMin d = d) := by
  refine ⟨?_, dates_between_length _ _, dates_between_get _ _,
    fun d hd => dates_between_mem_sod _ _ d hd⟩
  rw [download_hr_logs_ok fetch nowMin s e hs he hle]

/-- Witness for C4: the twelve-day window 2025-11-01 to 2025-11-12. -/
theorem c4_witness :
    (download_hr_logs (fun _ => FetchResult.noData) 0
        (some ⟨20393 * 1440, true⟩) (some ⟨20404 * 1440, true⟩)).1 =
      Ev.connect :: (dates_between (20393 * 1440) (20404 * 1440)).map
        (fun d => Ev.request (startOfDayMin d)) ∧
    (dates_between (20393 * 1440) (20404 * 1440)).length =
      (startOfDayMin (20404 * 1440) - startOfDayMin (20393 * 1440)).toNat / 1440 + 1 ∧
    (∀ i, (h : i < (dates_between (20393 * 1440) (20404 * 1440)).length) →
      (dates_between (20393 * 1440) (20404 * 1440)).get ⟨i, h⟩ =
        startOfDayMin (20393 * 1440) + minutesPerDay * i) ∧
    (∀ d ∈ dates_between (20393 * 1440) (20404 * 1440), startOfDayMin d = d) :=
  c4_one_request_per_day_ascending _ 0 ⟨20393 * 1440, true⟩ ⟨20404 * 1440, true⟩
    rfl rfl (by decide)

/-- C5: a day whose fetch yields the `NoData` sentinel contributes zero rows
to the flattened output and is recorded with the `NoData` status, never an
error status; the run still succeeds with every day of the window processed
in order. -/
theorem c5_nodata_day_contributes_nothing (fetch : Int → FetchResult)
    (nowMin : Int) (s e : PyDatetime) (hs : s.aware = true)
    (he : e.aware = true) (hle : s.minutes ≤ e.minutes) :
    (download_hr_logs fetch nowMin (some s) (some e)).2 =
      Except.ok
        ((dates_between s.minutes e.minutes).map
           (fun d => dayStatus (fetch (startOfDayMin d))),
         (dates_between s.minutes e.minutes).flatMap
           (fun d => dayRows (fetch (startOfDayMin d)))) ∧
    (∀ d ∈ dates_between s.minutes e.minutes,
       fetch (startOfDayMin d) = FetchResult.noData →
         dayRows (fetch (startOfDayMin d)) = [] ∧
         dayStatus (fetch (startOfDayMin d)) = DayStatus.noData ∧
         ∀ m, dayStatus (fetch (startOfDayMin d)) ≠ DayStatus.error m) := by
  constructor
  · rw [download_hr_logs_ok fetch nowMin s e hs he hle]
  · intro d _ hnd
    rw [hnd]
    exact ⟨rfl, rfl, fun m hm => DayStatus.noConfusion hm⟩

/-- Witness for C5: a two-day window whose first day has no data yields only
the second day's rows, with the first day reported as `NoData`. -/
theorem c5_witness :
    (download_hr_logs
        (fun t => if t = 0 then FetchResult.noData
                  else FetchResult.ok { timestamp := t, heart_rates := [64] })
        0 (some ⟨0, true⟩) (some ⟨1440, true⟩)).2 =
      Except.ok
        ((dates_between 0 1440).map
           (fun d => dayStatus
             ((fun t => if t = 0 then FetchResult.noData
                        else FetchResult.ok { timestamp := t, heart_rates := [64] })
               (startOfDayMin d))),
         (dates_between 0 1440).flatMap
           (fun d => dayRows
             ((fun t => if t = 0 then FetchResult.noData
                        else FetchResult.ok { timestamp := t, heart_rates := [64] })
               (startOfDayMin d)))) ∧
    (∀ d ∈ dates_between 0 1440,
       (fun t => if t = 0 then FetchResult.noData
                 else FetchResult.ok { timestamp := t, heart_rates := [64] })
           (startOfDayMin d) = FetchResult.noData →
         dayRows
           ((fun t => if t = 0 then FetchResult.noData
                      else FetchResult.ok { timestamp := t, heart_rates := [64] })
             (startOfDayMin d)) = [] ∧
         dayStatus
           ((fun t => if t = 0 then FetchResult.noData
                      else FetchResult.ok { timestamp := t, heart_rates := [64] })
             (startOfDayMin d)) = DayStatus.noData ∧
         ∀ m, dayStatus
           ((fun t => if t = 0 then FetchResult.noData
                      else FetchResult.ok { timestamp := t, heart_rates := [64] })
             (startOfDayMin d)) ≠ DayStatus.error m) :=
  c5_nodata_day_contributes_nothing _ 0 ⟨0, true⟩ ⟨1440, true⟩ rfl rfl (by decide)

/-- C6 counterexample: the claim "naive instants are rejected with a
validation error before any request" is false — on a naive (aware = false)
start and end, `download_hr_logs` raises nothing, opens the connection and
issues the day's request, succeeding with a `NoData` status. -/
theorem c6_counterexample :
    download_hr_logs (fun _ => FetchResult.noData) 0
        (some ⟨0, false⟩) (some ⟨0, false⟩) =
      ([Ev.connect, Ev.request 0], Except.ok ([DayStatus.noData], [])) ∧
    (download_hr_logs (fun _ => FetchResult.noData) 0
        (some ⟨0, false⟩) (some ⟨0, false⟩)).2 ≠
      Except.error "start must be <= end" := by
  constructor
  · rfl
  · intro hcontra
    have h1 : (download_hr_logs (fun _ => FetchResult.noData) 0
        (some ⟨0, false⟩) (some ⟨0, false⟩)).2 =
        Except.ok ([DayStatus.noData], []) := rfl
    rw [h1] at hcontra
    exact Except.noConfusion hcontra

/-- The awareness-repair step is invariant under pre-converting its input. -/
theorem ensure_aware_naive (d : PyDatetime) :
    ensure_aware (naive_to_aware d) = ensure_aware d := by
  cases d with
  | mk m a => cases a <;> rfl

/-- C6 (amended): a naive start or end is not rejected; `download_hr_logs`
converts it with `naive_to_aware` — which keeps the instant and marks it
aware (UTC) — and then behaves exactly as on the equivalent aware window. -/
theorem c6_amended_naive_inputs_converted_to_utc (fetch : Int → FetchResult)
    (nowMin : Int) (s e : PyDatetime) :
    download_hr_logs fetch nowMin (some s) (some e) =
      download_hr_logs fetch nowMin (some (naive_to_aware s))
        (some (naive_to_aware e)) ∧
    (naive_to_aware s).minutes = s.minutes ∧
    (naive_to_aware s).aware = true := by
  refine ⟨?_, rfl, rfl⟩
  simp only [download_hr_logs, ensure_aware_naive]

/-- C7: the flattened output is exactly the per-day row lists concatenated
in day order, each day's rows being its samples in sample order rendered as
`(ISO-8601 timestamp, integer reading)` pairs; every sample of a delivered
log appears as a row at its offset instant — zero-valued readings included,
nothing is filtered. -/
theorem c7_rows_ordered_iso_pairs_zeros_included (fetch : Int → FetchResult)
    (nowMin : Int) (s e : PyDatetime) (hs : s.aware = true)
    (he : e.aware = true) (hle : s.minutes ≤ e.minutes) :
    (download_hr_logs fetch nowMin (some s) (some e)).2 =
      Except.ok
        ((dates_between s.minutes e.minutes).map
           (fun d => dayStatus (fetch (startOfDayMin d))),
         (dates_between s.minutes e.minutes).flatMap
           (fun d => dayRows (fetch (startOfDayMin d)))) ∧
    (∀ log, dayRows (FetchResult.ok log) =
       log.heart_rates_with_times.map (fun p => (isoformat p.2, p.1))) ∧
    (∀ d ∈ dates_between s.minutes e.minutes, ∀ log,
       fetch (startOfDayMin d) = FetchResult.ok log →
         ∀ i, (hi : i < log.heart_rates.length) →
           (isoformat (log.timestamp + sampleIntervalMin * i),
             log.heart_rates.get ⟨i, hi⟩) ∈
             (dates_between s.minutes e.minutes).flatMap
               (fun d => dayRows (fetch (startOfDayMin d)))) := by
  refine ⟨?_, fun log => rfl, ?_⟩
  · rw [download_hr_logs_ok fetch nowMin s e hs he hle]
  · intro d hd log hlog i hi
    rw [List.mem_flatMap]
    refine ⟨d, hd, ?_⟩
    rw [hlog]
    have hmem := withTimes_get_mem log.timestamp log.heart_rates i hi
    have hmap := List.mem_map_of_mem
      (fun p : Int × Int => (isoformat p.2, p.1)) hmem
    simpa [dayRows, logRows, HeartRateLog.heart_rates_with_times] using hmap

/-- Witness for C7: a one-day window whose log holds a zero reading then a
nonzero one; both appear as rows, the zero at the day's start instant. -/
theorem c7_witness :
    (download_hr_logs
        (fun t => FetchResult.ok { timestamp := t, heart_rates := [0, 80] })
        0 (some ⟨0, true⟩) (some ⟨0, true⟩)).2 =
      Except.ok
        ((dates_between 0 0).map
           (fun d => dayStatus
             ((fun t => FetchResult.ok { timestamp := t, heart_rates := [0, 80] })
               (startOfDayMin d))),
         (dates_between 0 0).flatMap
           (fun d => dayRows
             ((fun t => FetchResult.ok { timestamp := t, heart_rates := [0, 80] })
               (startOfDayMin d)))) ∧
    (∀ log, dayRows (FetchResult.ok log) =
       log.heart_rates_with_times.map (fun p => (isoformat p.2, p.1))) ∧
    (∀ d ∈ dates_between 0 0, ∀ log,
       (fun t => FetchResult.ok { timestamp := t, heart_rates := [0, 80] })
           (startOfDayMin d) = FetchResult.ok log →
         ∀ i, (hi : i < log.heart_rates.length) →
           (isoformat (log.timestamp + sampleIntervalMin * i),
             log.heart_rates.get ⟨i, hi⟩) ∈
             (dates_between 0 0).flatMap
               (fun d => dayRows
                 ((fun t => FetchResult.ok { timestamp := t, heart_rates := [0, 80] })
                   (startOfDayMin d)))) :=
  c7_rows_ordered_iso_pairs_zeros_included _ 0 ⟨0, true⟩ ⟨0, true⟩ rfl rfl (by decide)

/-- C8: when the client yields no readings (a `None` response) or every
reading fails the validity filter, `collect_spo2` returns the empty list
without raising, and likewise `realtime_hr` ends without a summary when all
readings are zero — reporting the empty outcome is left to the caller. -/
theorem c8_zero_valid_samples_give_empty_result (address : String)
    (count max_tries timeout : Int) (clientResult : Option (List Int))
    (rs : List Int)
    (h : ∀ r ∈ clientResult.getD [], spo2Valid r = false)
    (hz : ∀ r ∈ rs, r = (0 : Int)) :
    collect_spo2 address count max_tries timeout clientResult = [] ∧
    ∀ v, realtime_hr (some rs) ≠ RealtimeHrOutcome.summary v := by
  constructor
  · cases clientResult with
    | none => rfl
    | some l =>
      simp only [collect_spo2]
      rw [List.filter_eq_nil_iff]
      intro a ha
      simp [h a ha]
  · have hfil : rs.filter (fun r => r != 0) = [] := by
      rw [List.filter_eq_nil_iff]
      intro a ha
      simp [hz a ha]
    intro v
    unfold realtime_hr
    by_cases hrs : rs.isEmpty <;> simp [hrs, hfil]

/-- Witness for C8: a response of only invalid readings gives `[]`, and an
all-zero real-time read ends without a summary. -/
theorem c8_witness :
    collect_spo2 "CB:2C:18:A7:4A:00" 6 20 2 (some [0, 300, -5]) = [] ∧
    ∀ v, realtime_hr (some [0, 0]) ≠ RealtimeHrOutcome.summary v :=
  c8_zero_valid_samples_give_empty_result "CB:2C:18:A7:4A:00" 6 20 2
    (some [0, 300, -5]) [0, 0] (by decide) (by decide)

/-- C9: every element of the list returned by `collect_spo2` lies in the
closed interval [50, 100]; zero and out-of-range readings never appear in
the result. -/
theorem c9_results_within_physiological_range (address : String)
    (count max_tries timeout : Int) (clientResult : Option (List Int))
    (x : Int)
    (hx : x ∈ collect_spo2 address count max_tries timeout clientResult) :
    50 ≤ x ∧ x ≤ 100 := by
  cases clientResult with
  | none => simp [collect_spo2] at hx
  | some l =>
    simp only [collect_spo2] at hx
    rw [List.mem_filter] at hx
    have hv := hx.2
    simp only [spo2Valid, Bool.and_eq_true, decide_eq_true_eq] at hv
    exact ⟨hv.1.2, hv.2⟩

/-- Witness for C9: from the stream `[0, 97, 200]` the reading 97 survives
the filter and lies in range. -/
theorem c9_witness : (50 : Int) ≤ 97 ∧ (97 : Int) ≤ 100 :=
  c9_results_within_physiological_range "CB:2C:18:A7:4A:00" 6 20 2
    (some [0, 97, 200]) 97 (by decide)

/-- C10: the `count`, `max_tries` and `timeout` parameters of
`collect_spo2` never influence its result — two calls with the same address
and the same client response but arbitrary different values of these
parameters return the same list, so the advertised target of `count` valid
readings is not enforced. -/
theorem c10_collection_parameters_have_no_effect (address : String)
    (count1 maxTries1 timeout1 count2 maxTries2 timeout2 : Int)
    (clientResult : Option (List Int)) :
    collect_spo2 address count1 maxTries1 timeout1 clientResult =
      collect_spo2 address count2 maxTries2 timeout2 clientResult := rfl
